import Mathlib

/-!
Verification development for the symbolic parameter-expression core
(`qiskit/circuit/parameterexpression.py`).

The Python class `ParameterExpression` is shallowly embedded below.  The
native symbolic evaluator (the Rust-implemented `SymbolExpr` value type) and
the external `Parameter` identity type are not part of the covered source
file; they are modelled from the specification, as small executable
structures faithful to the spec's description of their interface
(construct-symbol, operator application, substitution, numeric evaluation,
equality, algebraic simplification that may eliminate symbols via degenerate
coefficients).
-/

/-- Modelled from the spec: a Python numeric value as seen by the core —
a finite real, a finite complex, the canonical infinities, or NaN.
Rationals stand in for floats (the claims under study never depend on
floating-point rounding, only on exact arithmetic, zero tests and
non-finiteness). -/
inductive PyNum where
  | real (q : ℚ)
  | cplx (re im : ℚ)
  | inf
  | ninf
  | nan
deriving DecidableEq, Repr

namespace PyNum

/-- Modelled from the spec: `numpy.isfinite` — false exactly on NaN and the
infinities. -/
def isfinite : PyNum → Bool
  | real _ => true
  | cplx _ _ => true
  | _ => false

/-- Modelled from the spec: Python numeric equality (`==`): NaN compares
unequal to everything including itself; a complex with zero imaginary part
compares equal to the corresponding real. -/
def pyEq : PyNum → PyNum → Bool
  | nan, _ => false
  | _, nan => false
  | real a, real b => a == b
  | real a, cplx c d => a == c && d == 0
  | cplx a b, real c => a == c && b == 0
  | cplx a b, cplx c d => a == c && b == d
  | inf, inf => true
  | ninf, ninf => true
  | _, _ => false

/-- Modelled from the spec: numeric negation. -/
def neg : PyNum → PyNum
  | real q => real (-q)
  | cplx a b => cplx (-a) (-b)
  | inf => ninf
  | ninf => inf
  | nan => nan

/-- Modelled from the spec: numeric addition with NaN/infinity propagation. -/
def add : PyNum → PyNum → PyNum
  | nan, _ => nan
  | _, nan => nan
  | inf, ninf => nan
  | ninf, inf => nan
  | inf, _ => inf
  | _, inf => inf
  | ninf, _ => ninf
  | _, ninf => ninf
  | real a, real b => real (a + b)
  | real a, cplx c d => cplx (a + c) d
  | cplx a b, real c => cplx (a + c) b
  | cplx a b, cplx c d => cplx (a + c) (b + d)

/-- Modelled from the spec: numeric subtraction. -/
def sub (a b : PyNum) : PyNum := a.add b.neg

/-- Modelled from the spec: numeric multiplication with NaN/infinity
propagation (indeterminate products give NaN). -/
def mul : PyNum → PyNum → PyNum
  | real a, real b => real (a * b)
  | real x, cplx c d => cplx (x * c) (x * d)
  | cplx a b, real y => cplx (a * y) (b * y)
  | cplx a b, cplx c d => cplx (a * c - b * d) (a * d + b * c)
  | nan, _ => nan
  | _, nan => nan
  | inf, inf => inf
  | inf, ninf => ninf
  | ninf, inf => ninf
  | ninf, ninf => inf
  | inf, real x => if x = 0 then nan else if 0 < x then inf else ninf
  | real x, inf => if x = 0 then nan else if 0 < x then inf else ninf
  | ninf, real x => if x = 0 then nan else if 0 < x then ninf else inf
  | real x, ninf => if x = 0 then nan else if 0 < x then ninf else inf
  | _, _ => nan

/-- Modelled from the spec: numeric division; division of a nonzero finite
value by exact zero yields the canonical infinity sentinel (as the native
evaluator's complex infinity does), zero by zero yields NaN. -/
def div : PyNum → PyNum → PyNum
  | real a, real b =>
      if b = 0 then (if a = 0 then nan else inf) else real (a / b)
  | cplx a b, real y =>
      if y = 0 then (if a = 0 ∧ b = 0 then nan else inf) else cplx (a / y) (b / y)
  | real x, cplx c d =>
      if c = 0 ∧ d = 0 then (if x = 0 then nan else inf)
      else cplx (x * c / (c * c + d * d)) (-(x * d) / (c * c + d * d))
  | cplx a b, cplx c d =>
      if c = 0 ∧ d = 0 then (if a = 0 ∧ b = 0 then nan else inf)
      else cplx ((a * c + b * d) / (c * c + d * d)) ((b * c - a * d) / (c * c + d * d))
  | nan, _ => nan
  | _, nan => nan
  | real x, inf => if x = 0 then real 0 else real 0
  | real x, ninf => if x = 0 then real 0 else real 0
  | inf, real _ => inf
  | ninf, real _ => ninf
  | _, _ => nan

/-- Modelled from the spec: numeric power; only integer exponents are given
exact semantics (the claims never exercise fractional powers), zero to a
negative power yields the infinity sentinel. -/
def pow : PyNum → PyNum → PyNum
  | real a, real b =>
      if b.den = 1 then
        (if a = 0 ∧ b.num < 0 then inf else real (a ^ b.num))
      else nan
  | nan, _ => nan
  | _, nan => nan
  | _, _ => nan

end PyNum

/-- Modelled from the spec: the external named-parameter identity type
(`Parameter`): identity-bearing (a UUID), named, hashable; the core stores
only its name and identity. -/
structure Param where
  name : String
  uuid : Nat
deriving DecidableEq, Repr

/-- Modelled from the spec: the native evaluator's opaque value type
(`SymbolExpr`, the Rust-side symbolic expression): a tree of symbols,
numeric constants and operator applications. -/
inductive SymExpr where
  | const (v : PyNum)
  | sym (name : String)
  | add (a b : SymExpr)
  | sub (a b : SymExpr)
  | mul (a b : SymExpr)
  | div (a b : SymExpr)
  | pow (a b : SymExpr)
deriving DecidableEq, Repr

namespace SymExpr

/-- Modelled from the spec: evaluator addition, folding constants. -/
def addE : SymExpr → SymExpr → SymExpr
  | const a, const b => const (a.add b)
  | a, b => add a b

/-- Modelled from the spec: evaluator subtraction, folding constants. -/
def subE : SymExpr → SymExpr → SymExpr
  | const a, const b => const (a.sub b)
  | a, b => sub a b

/-- Modelled from the spec: evaluator multiplication.  Constants fold, and a
multiplication by the exact constant zero collapses to zero even when the
other factor still contains symbols — the algebraic elimination of a symbol
by a degenerate coefficient that the spec explicitly attributes to the
evaluator. -/
def mulE : SymExpr → SymExpr → SymExpr
  | const a, const b => const (a.mul b)
  | const (.real 0), _ => const (.real 0)
  | _, const (.real 0) => const (.real 0)
  | a, b => mul a b

/-- Modelled from the spec: evaluator division, folding constants (division
of a nonzero constant by constant zero produces the infinity sentinel). -/
def divE : SymExpr → SymExpr → SymExpr
  | const a, const b => const (a.div b)
  | a, b => div a b

/-- Modelled from the spec: evaluator power, folding constants. -/
def powE : SymExpr → SymExpr → SymExpr
  | const a, const b => const (a.pow b)
  | a, b => pow a b

/-- Modelled from the spec: the evaluator's `is_infinite` report — true
exactly when the value is an infinity constant. -/
def is_infinite : SymExpr → Bool
  | const .inf => true
  | const .ninf => true
  | _ => false

/-- Modelled from the spec: comparison of an evaluator value against a bare
Python number (the `expr == number` form): true iff the value is a constant
that compares numerically equal. -/
def eqNum : SymExpr → PyNum → Bool
  | const v, n => v.pyEq n
  | _, _ => false

/-- Modelled from the spec: the evaluator's numeric evaluation `.value()` —
succeeds iff no symbol remains in the tree. -/
def value : SymExpr → Option PyNum
  | const v => some v
  | sym _ => none
  | add a b => match a.value, b.value with
      | some x, some y => some (x.add y)
      | _, _ => none
  | sub a b => match a.value, b.value with
      | some x, some y => some (x.sub y)
      | _, _ => none
  | mul a b => match a.value, b.value with
      | some x, some y => some (x.mul y)
      | _, _ => none
  | div a b => match a.value, b.value with
      | some x, some y => some (x.div y)
      | _, _ => none
  | pow a b => match a.value, b.value with
      | some x, some y => some (x.pow y)
      | _, _ => none

/-- Modelled from the spec: the evaluator's `.symbols()` — the names of the
symbols currently appearing in the tree. -/
def symbols : SymExpr → List String
  | const _ => []
  | sym n => [n]
  | add a b => a.symbols ++ b.symbols
  | sub a b => a.symbols ++ b.symbols
  | mul a b => a.symbols ++ b.symbols
  | div a b => a.symbols ++ b.symbols
  | pow a b => a.symbols ++ b.symbols

/-- Modelled from the spec: the evaluator's `bind`: substitute numeric
values for the named symbols, re-simplifying on the way up (so a division
whose denominator becomes exact zero produces the infinity sentinel). -/
def bindE (m : List (String × PyNum)) : SymExpr → SymExpr
  | const v => const v
  | sym n => match m.lookup n with
      | some v => const v
      | none => sym n
  | add a b => addE (a.bindE m) (b.bindE m)
  | sub a b => subE (a.bindE m) (b.bindE m)
  | mul a b => mulE (a.bindE m) (b.bindE m)
  | div a b => divE (a.bindE m) (b.bindE m)
  | pow a b => powE (a.bindE m) (b.bindE m)

/-- Modelled from the spec: the evaluator's simultaneous substitution of
expressions for named symbols (a single structural pass, so a substituted
expression is never itself re-substituted). -/
def subsE (m : List (String × SymExpr)) : SymExpr → SymExpr
  | const v => const v
  | sym n => match m.lookup n with
      | some e => e
      | none => sym n
  | add a b => addE (a.subsE m) (b.subsE m)
  | sub a b => subE (a.subsE m) (b.subsE m)
  | mul a b => mulE (a.subsE m) (b.subsE m)
  | div a b => divE (a.subsE m) (b.subsE m)
  | pow a b => powE (a.subsE m) (b.subsE m)

/-- Modelled from the spec: symbolic differentiation with respect to a named
symbol (standard rules; the power rule is given for the
constant-exponent case, the only shape the core produces). -/
def derivative (x : String) : SymExpr → SymExpr
  | const _ => const (.real 0)
  | sym n => const (.real (if n = x then 1 else 0))
  | add a b => addE (a.derivative x) (b.derivative x)
  | sub a b => subE (a.derivative x) (b.derivative x)
  | mul a b => addE (mulE (a.derivative x) b) (mulE a (b.derivative x))
  | div a b => divE (subE (mulE (a.derivative x) b) (mulE a (b.derivative x))) (mulE b b)
  | pow a b => mulE (mulE b (powE a (subE b (const (.real 1))))) (a.derivative x)

end SymExpr

/-- Python-dict insertion on an association list: an existing key has its
value replaced in place, a new key is appended at the end (insertion-order
semantics of Python dictionaries). -/
def dinsert {α β : Type} [DecidableEq α] (m : List (α × β)) (k : α) (v : β) :
    List (α × β) :=
  if m.any (fun kv => kv.1 = k) then
    m.map (fun kv => if kv.1 = k then (k, v) else kv)
  else m ++ [(k, v)]

/-- Python-dict lookup on an association list. -/
def dget {α β : Type} [DecidableEq α] (m : List (α × β)) (k : α) : Option β :=
  (m.find? (fun kv => kv.1 = k)).map Prod.snd

/-- Python dict-merge of two association lists, as in the source's
spread-merge of two symbol mappings: entries of the second mapping update or
extend the first. -/
def dunion {α β : Type} [DecidableEq α] (m1 m2 : List (α × β)) :
    List (α × β) :=
  m2.foldl (fun acc kv => dinsert acc kv.1 kv.2) m1

/-- Keys of an association list, in order. -/
def pkeys {α β : Type} (m : List (α × β)) : List α := m.map Prod.fst

/-- The closed enumeration of replay operation codes (`_OPCode` in the
source): note the absence of any dedicated unary-negation code. -/
inductive OPCode where
  | ADD | SUB | MUL | DIV | POW | SIN | COS | TAN | ASIN | ACOS | EXP | LOG
  | SIGN | GRAD | CONJ | SUBSTITUTE | ABS | ATAN | RSUB | RDIV | RPOW
deriving DecidableEq, Repr

mutual

/-- The core Expression Value (`ParameterExpression`): the mapping from
parameter identities to their internal symbol names (`_parameter_symbols`,
each symbol being the symbol named after its parameter), the native
evaluator value (`_symbol_expr`), the replay log (`_qpy_replay`) and the
standalone flag (`_standalone_param`). -/
inductive ParameterExpression where
  | mk (parameter_symbols : List (Param × String)) (symbol_expr : SymExpr)
       (qpy_replay : List ReplayOp) (standalone_param : Bool)

/-- A replay-log record: either an `_INSTRUCTION` (operation code plus
optional left/right operands, `none` meaning "the prior step's output") or a
`_SUBS` substitution record carrying the bindings. -/
inductive ReplayOp where
  | instr (op : OPCode) (lhs : Option Operand) (rhs : Option Operand)
  | subsRec (binds : List (Param × Operand))

/-- An operand position as the source's duck-typed values: a plain Python
number, a nested Expression Value, or some other (non-numeric,
non-expression) object. -/
inductive Operand where
  | num (n : PyNum)
  | expr (e : ParameterExpression)
  | obj

end

namespace ParameterExpression

/-- Accessor for the parameter-to-symbol mapping. -/
def parameter_symbols : ParameterExpression → List (Param × String)
  | .mk s _ _ _ => s

/-- Accessor for the native evaluator value. -/
def symbol_expr : ParameterExpression → SymExpr
  | .mk _ e _ _ => e

/-- Accessor for the replay log. -/
def qpy_replay : ParameterExpression → List ReplayOp
  | .mk _ _ r _ => r

/-- Accessor for the standalone flag. -/
def standalone_param : ParameterExpression → Bool
  | .mk _ _ _ b => b

/-- The set of unbound parameters (`parameters` property: the keys of the
symbol mapping). -/
def parameters (a : ParameterExpression) : List Param :=
  pkeys a.parameter_symbols

/-- The name-to-parameter index (`_names`): built from the symbol mapping,
keyed by parameter name, later entries winning as in a Python dict
comprehension. -/
def names (a : ParameterExpression) : List (String × Param) :=
  a.parameter_symbols.foldl (fun m ps => dinsert m ps.1.name ps.1) []

end ParameterExpression

/-- Modelled from the spec: a `Parameter` viewed as an Expression Value — a
standalone expression wrapping the bare symbol named after it (the
`Parameter` class itself is outside the covered source). -/
def Param.toExpr (p : Param) : ParameterExpression :=
  .mk [(p, p.name)] (.sym p.name) [] true

/-- The error kinds surfaced by the core's operations: the three
`CircuitError` validation failures, `ZeroDivisionError`, and the
"not applicable" result (Python's `NotImplemented` return) by which an
operator declines an unsupported operand. -/
inductive PEError where
  | unknownParameters
  | nonNumericBinding
  | nameConflict
  | zeroDivision
  | notImplemented
deriving DecidableEq, Repr

/-- Convenience: whether a fallible operation returned a value. -/
def Except.isOkE {ε α : Type} : Except ε α → Bool
  | .ok _ => true
  | .error _ => false

/-- Convenience: the value of a successful fallible operation. -/
def Except.getOkE {ε α : Type} : Except ε α → Option α
  | .ok a => some a
  | .error _ => none

namespace ParameterExpression

/-- The unknown-parameter computation of
`_raise_if_passed_unknown_parameters`: the supplied keys minus the
expression's current parameters (nonempty means the validation raises). -/
def unknownParams (a : ParameterExpression) (ks : List Param) : List Param :=
  ks.filter (fun p => !(a.parameters.contains p))

/-- Validation `_raise_if_passed_unknown_parameters`: raises a
`CircuitError` iff some supplied key is not a parameter of the
expression. -/
def raise_if_passed_unknown_parameters (a : ParameterExpression)
    (ks : List Param) : Option PEError :=
  if a.unknownParams ks ≠ [] then some .unknownParameters else none

/-- Whether a bind value is a Python number (`isinstance(v, numbers.Number)`) —
true for every numeric value including NaN and the infinities, false for
nested expressions and other objects. -/
def isNumberOperand : Operand → Bool
  | .num _ => true
  | _ => false

/-- The non-numeric entries of a binding map, as collected by
`_raise_if_passed_nan`. -/
def nonNumericEntries (vals : List (Param × Operand)) :
    List (Param × Operand) :=
  vals.filter (fun pv => !(isNumberOperand pv.2))

/-- Validation `_raise_if_passed_nan`: raises a `CircuitError` iff some
supplied value is not an instance of the abstract numeric type. -/
def raise_if_passed_nan (vals : List (Param × Operand)) : Option PEError :=
  if !(nonNumericEntries vals).isEmpty then some .nonNumericBinding else none

/-- The conflicting names computed by `_raise_if_parameter_names_conflict`:
inbound names whose parameter differs in identity from a same-named
parameter of the receiver that is not among the outbound (being-replaced)
names. -/
def conflictingNames (a : ParameterExpression)
    (inbound_names : List (String × Param)) (outbound_names : List String) :
    List String :=
  (inbound_names.filter (fun np =>
    match dget a.names np.1 with
    | some r => !(outbound_names.contains np.1) && decide (np.2 ≠ r)
    | none => false)).map Prod.fst

/-- The symbol-name-to-value map a bind call hands to the native evaluator:
each bound parameter present in the expression contributes its internal
symbol name with the supplied numeric value. -/
def symbolValues (a : ParameterExpression) (vals : List (Param × Operand)) :
    List (String × PyNum) :=
  vals.filterMap (fun pv =>
    match dget a.parameter_symbols pv.1, pv.2 with
    | some s, .num n => some (s, n)
    | _, _ => none)

/-- The native value produced by a bind call, before the division-by-zero
check. -/
def boundSymbolExpr (a : ParameterExpression)
    (vals : List (Param × Operand)) : SymExpr :=
  a.symbol_expr.bindE (a.symbolValues vals)

/-- The bind call's division-by-zero detection on the resulting native
value: the value reports itself infinite, or compares equal to the
float infinity sentinel. -/
def infiniteCheck (e : SymExpr) : Bool :=
  e.is_infinite || e.eqNum .inf

/-- `bind`: validates the keys (unless unknown parameters are allowed) and
the numeric-ness of the values, asks the evaluator to substitute the bound
symbols, computes the still-free parameters set-theoretically from the known
parameter keys, rejects a resulting infinite value as a division by zero,
and returns the new Expression Value with a substitution record appended to
a copy of the log. -/
def bind (a : ParameterExpression) (vals : List (Param × Operand))
    (allow_unknown_parameters : Bool) : Except PEError ParameterExpression :=
  if !allow_unknown_parameters ∧ a.unknownParams (pkeys vals) ≠ [] then
    .error .unknownParameters
  else if !(nonNumericEntries vals).isEmpty then
    .error .nonNumericBinding
  else
    let bound_symbol_expr := a.boundSymbolExpr vals
    let free_parameter_symbols :=
      a.parameter_symbols.filter (fun ps => !((pkeys vals).contains ps.1))
    if infiniteCheck bound_symbol_expr then .error .zeroDivision
    else
      .ok (.mk free_parameter_symbols bound_symbol_expr
            (a.qpy_replay ++ [.subsRec vals]) false)

/-- The inbound-name index a substitute call builds from the replacement
expressions: a name-keyed Python dict over every parameter introduced by a
replacement, later entries overwriting earlier ones. -/
def inboundNames (pmap : List (Param × ParameterExpression)) :
    List (String × Param) :=
  pmap.foldl
    (fun acc pe => pe.2.parameters.foldl
      (fun acc2 p => dinsert acc2 p.name p) acc)
    []

/-- `subs`: validates the keys, checks replacement-parameter names for
conflicts against the receiver's non-replaced parameters, builds the new
symbol mapping (non-replaced parameters kept, replacement parameters
added), asks the evaluator for a simultaneous substitution, and returns the
new Expression Value with a substitution record appended. -/
def subs (a : ParameterExpression)
    (parameter_map : List (Param × ParameterExpression))
    (allow_unknown_parameters : Bool) : Except PEError ParameterExpression :=
  if !allow_unknown_parameters ∧
      a.unknownParams (pkeys parameter_map) ≠ [] then
    .error .unknownParameters
  else if a.conflictingNames (inboundNames parameter_map)
      ((pkeys parameter_map).map Param.name) ≠ [] then
    .error .nameConflict
  else
    let init_parameter_symbols :=
      a.parameter_symbols.filter
        (fun ps => !((pkeys parameter_map).contains ps.1))
    let step :=
      parameter_map.foldl
        (fun (st : List (String × SymExpr) × List (Param × String)) opn =>
          match dget a.parameter_symbols opn.1 with
          | some old_symbol =>
              (dinsert st.1 old_symbol opn.2.symbol_expr,
               opn.2.parameters.foldl (fun m p => dinsert m p p.name) st.2)
          | none => st)
        ([], init_parameter_symbols)
    .ok (.mk step.2 (a.symbol_expr.subsE step.1)
          (a.qpy_replay ++
            [.subsRec (parameter_map.map (fun pe => (pe.1, .expr pe.2)))])
          false)

/-- The operand recorded for the receiver's own position in an instruction:
the receiver itself when its standalone flag is set, otherwise the implicit
"prior step's output". -/
def selfOperand (a : ParameterExpression) : Option Operand :=
  if a.standalone_param then some (.expr a) else none

/-- `_apply_operation`: the single routine backing every binary operator.
A second-expression operand passes the name-conflict check and merges both
symbol mappings; a finite plain number leaves the mapping unchanged; a
non-finite number or any other object is declined (`NotImplemented`).  The
evaluator combines the native values honoring `reflected`, and one
instruction is appended recording the receiver explicitly only when its
standalone flag is set (reflected subtract/divide/power keep the receiver on
the left of the record under their dedicated reflected codes). -/
def applyOperation (a : ParameterExpression)
    (operation : SymExpr → SymExpr → SymExpr) (other : Operand)
    (reflected : Bool) (op_code : OPCode) :
    Except PEError ParameterExpression :=
  let self_expr := a.symbol_expr
  let proceed := fun (parameter_symbols : List (Param × String))
      (other_expr : SymExpr) =>
    let expr := if reflected then operation other_expr self_expr
                else operation self_expr other_expr
    let new_op :=
      if reflected then
        if op_code = .RSUB ∨ op_code = .RDIV ∨ op_code = .RPOW then
          ReplayOp.instr op_code a.selfOperand (some other)
        else
          ReplayOp.instr op_code (some other) a.selfOperand
      else ReplayOp.instr op_code a.selfOperand (some other)
    Except.ok (ParameterExpression.mk parameter_symbols expr
      (a.qpy_replay ++ [new_op]) false)
  match other with
  | .expr o =>
      if a.conflictingNames o.names [] ≠ [] then .error .nameConflict
      else proceed (dunion a.parameter_symbols o.parameter_symbols)
        o.symbol_expr
  | .num n =>
      if n.isfinite then proceed a.parameter_symbols (.const n)
      else .error .notImplemented
  | .obj => .error .notImplemented

/-- Equality (`__eq__`) against another Expression Value: the
free-parameter sets must match (as sets) and the native values must compare
equal. -/
def eqExpr (a b : ParameterExpression) : Bool :=
  (a.parameters.all (fun p => b.parameters.contains p) &&
   b.parameters.all (fun p => a.parameters.contains p)) &&
  (a.symbol_expr == b.symbol_expr)

/-- Equality (`__eq__`) of an Expression Value against an arbitrary
operand: another Expression Value compares by parameter set and native
value; a bare number compares through the native value; anything else is
unequal. -/
def eq (a : ParameterExpression) : Operand → Bool
  | .expr b => a.eqExpr b
  | .num n => a.symbol_expr.eqNum n
  | .obj => false

/-- Whether an operand compares equal to zero (the `other == 0` test of
`__truediv__`). -/
def operandEqZero : Operand → Bool
  | .num n => n.pyEq (.real 0)
  | .expr b => b.symbol_expr.eqNum (.real 0)
  | .obj => false

/-- `__add__`. -/
def addOp (a : ParameterExpression) (other : Operand) :
    Except PEError ParameterExpression :=
  a.applyOperation SymExpr.addE other false .ADD

/-- `__radd__`. -/
def raddOp (a : ParameterExpression) (other : Operand) :
    Except PEError ParameterExpression :=
  a.applyOperation SymExpr.addE other true .ADD

/-- `__sub__`. -/
def subOp (a : ParameterExpression) (other : Operand) :
    Except PEError ParameterExpression :=
  a.applyOperation SymExpr.subE other false .SUB

/-- `__rsub__`. -/
def rsubOp (a : ParameterExpression) (other : Operand) :
    Except PEError ParameterExpression :=
  a.applyOperation SymExpr.subE other true .RSUB

/-- `__mul__`. -/
def mulOp (a : ParameterExpression) (other : Operand) :
    Except PEError ParameterExpression :=
  a.applyOperation SymExpr.mulE other false .MUL

/-- `__rmul__`. -/
def rmulOp (a : ParameterExpression) (other : Operand) :
    Except PEError ParameterExpression :=
  a.applyOperation SymExpr.mulE other true .MUL

/-- `__pos__`: multiplication by the literal constant 1, recorded as a MUL
instruction. -/
def posOp (a : ParameterExpression) : Except PEError ParameterExpression :=
  a.applyOperation SymExpr.mulE (.num (.real 1)) false .MUL

/-- `__neg__`: multiplication by the literal constant -1, recorded as a MUL
instruction. -/
def negOp (a : ParameterExpression) : Except PEError ParameterExpression :=
  a.applyOperation SymExpr.mulE (.num (.real (-1))) false .MUL

/-- `__truediv__`: an operand comparing equal to zero raises
`ZeroDivisionError` immediately, before any evaluator delegation; otherwise
the operation proceeds through `_apply_operation`. -/
def truedivOp (a : ParameterExpression) (other : Operand) :
    Except PEError ParameterExpression :=
  if operandEqZero other then .error .zeroDivision
  else a.applyOperation SymExpr.divE other false .DIV

/-- `__rtruediv__`. -/
def rtruedivOp (a : ParameterExpression) (other : Operand) :
    Except PEError ParameterExpression :=
  a.applyOperation SymExpr.divE other true .RDIV

/-- `__pow__`. -/
def powOp (a : ParameterExpression) (other : Operand) :
    Except PEError ParameterExpression :=
  a.applyOperation SymExpr.powE other false .POW

/-- `__rpow__`. -/
def rpowOp (a : ParameterExpression) (other : Operand) :
    Except PEError ParameterExpression :=
  a.applyOperation SymExpr.powE other true .RPOW

end ParameterExpression

/-- The result of a gradient call: either a plain numeric value (when the
derivative has no free parameters left, or when the differentiation
parameter was absent) or a new symbolic Expression Value. -/
inductive GradResult where
  | num (n : PyNum)
  | expr (e : ParameterExpression)

namespace ParameterExpression

/-- `gradient`: a parameter absent from the expression yields the numeric
zero directly, with no instruction recorded and no new Expression Value
constructed.  Otherwise the evaluator differentiates with respect to the
parameter's internal symbol; parameters whose symbols vanished from the
derivative are dropped from the mapping, and the result is symbolic iff
free parameters remain. -/
def gradient (a : ParameterExpression) (param : Param) : GradResult :=
  if !(a.parameters.contains param) then .num (.real 0)
  else
    let new_op := ReplayOp.instr .GRAD a.selfOperand
      (some (.expr param.toExpr))
    let key := (dget a.parameter_symbols param).getD param.name
    let expr_grad := a.symbol_expr.derivative key
    let parameter_symbols :=
      a.parameter_symbols.filter (fun ps => expr_grad.symbols.contains ps.2)
    if !parameter_symbols.isEmpty then
      .expr (.mk parameter_symbols expr_grad (a.qpy_replay ++ [new_op]) false)
    else
      .num (expr_grad.value.getD .nan)

end ParameterExpression

/-- The failure modes of the numeric casts: a `TypeError` naming the unbound
parameters, or a `TypeError` reporting that the (fully bound) value could
not be reduced to the requested type (raised either by the float retry or by
the inner complex cast it delegates to). -/
inductive CastError where
  | unboundParameters (ps : List Param)
  | notCastableFloat
  | notCastableComplex
deriving Repr

namespace ParameterExpression

/-- `__complex__`: coerce the evaluated native value; on failure report the
unbound parameters if any remain, otherwise an uncastable-value error. -/
def toComplex (a : ParameterExpression) : Except CastError PyNum :=
  match a.symbol_expr.value with
  | some v => .ok v
  | none =>
      if !a.parameters.isEmpty then .error (.unboundParameters a.parameters)
      else .error .notCastableComplex

/-- `__float__`: attempt the direct native coercion (Python's `float` fails
on any complex-typed value, even one with zero imaginary part); on failure,
if free parameters remain, fail naming them; otherwise retry by coercing to
complex and narrow back, returning the real part only when the imaginary
part is exactly zero. -/
def toFloat (a : ParameterExpression) : Except CastError PyNum :=
  match a.symbol_expr.value with
  | some (.cplx re im) =>
      if !a.parameters.isEmpty then .error (.unboundParameters a.parameters)
      else if im = 0 then .ok (.real re)
      else .error .notCastableFloat
  | some v => .ok v
  | none =>
      if !a.parameters.isEmpty then .error (.unboundParameters a.parameters)
      else .error .notCastableComplex

/-- Whether the direct `float(value())` attempt of `__float__` fails: the
evaluation itself fails (symbols remain) or the evaluated value is
complex-typed. -/
def floatAttemptFails (a : ParameterExpression) : Bool :=
  match a.symbol_expr.value with
  | none => true
  | some (.cplx _ _) => true
  | some _ => false

end ParameterExpression

/-- A concrete parameter named x. -/
def xP : Param := ⟨"x", 1⟩

/-- A concrete parameter named y. -/
def yP : Param := ⟨"y", 2⟩

/-- A concrete parameter named p. -/
def pP : Param := ⟨"p", 3⟩

/-- A concrete parameter named a (first identity). -/
def a1P : Param := ⟨"a", 10⟩

/-- A concrete parameter named a (second, distinct identity sharing the
name). -/
def a2P : Param := ⟨"a", 20⟩

/-- Unwrap a successful operation result, with a fallback for the error
case (used only to name concrete successful results). -/
def getOkD (x : Except PEError ParameterExpression)
    (d : ParameterExpression) : ParameterExpression :=
  match x with
  | .ok e => e
  | .error _ => d

/-- The Expression Value produced by multiplying the parameter x by the
constant 0: its native value is algebraically reduced to the constant 0
while x remains a free parameter. -/
def xTimesZero : ParameterExpression :=
  getOkD (xP.toExpr.mulOp (.num (.real 0))) xP.toExpr

/-- The Expression Value 1/p, built by reflected division of the constant 1
by the parameter p. -/
def oneOverP : ParameterExpression :=
  getOkD (pP.toExpr.rtruedivOp (.num (.real 1))) pP.toExpr

/-- The Expression Value x*y. -/
def xTimesY : ParameterExpression :=
  getOkD (xP.toExpr.mulOp (.expr yP.toExpr)) xP.toExpr

/-- A concrete receiver containing the parameters x, y and the second
a-named parameter: (x + y) + a. -/
def recPE : ParameterExpression :=
  getOkD ((getOkD (xP.toExpr.addOp (.expr yP.toExpr)) xP.toExpr).addOp
    (.expr a2P.toExpr)) xP.toExpr

/-- A substitution map replacing x by an expression introducing the first
a-named parameter and y by an expression introducing the second: the
earlier, conflicting identity is shadowed in the name-keyed inbound index
by the later, non-conflicting one. -/
def c4map : List (Param × ParameterExpression) :=
  [(xP, a1P.toExpr), (yP, a2P.toExpr)]

/-- The same substitution map with the two replacements in the opposite
order, so the conflicting identity is the one retained in the name-keyed
inbound index. -/
def c4mapBad : List (Param × ParameterExpression) :=
  [(yP, a2P.toExpr), (xP, a1P.toExpr)]

/-- A concrete non-standalone Expression Value (y + 1): any expression
produced by an operation carries a cleared standalone flag. -/
def bC : ParameterExpression :=
  getOkD (yP.toExpr.addOp (.num (.real 1))) yP.toExpr

/-- A concrete fully bound Expression Value whose native value is
complex-typed with exactly zero imaginary part. -/
def cplxPE : ParameterExpression := .mk [] (.const (.cplx 3 0)) [] false

/-- C1 (amended): two Expression Values compare equal iff their
free-parameter sets match and their native values compare equal; an
Expression Value compares equal to a bare numeric constant iff its native
value compares equal to that constant — full boundness is sufficient for
that comparison to be meaningful but is not required by the comparison
itself. -/
theorem C1_eq_characterization (a b : ParameterExpression) (n : PyNum) :
    (a.eq (.expr b) = true ↔
      ((∀ p : Param, p ∈ a.parameters ↔ p ∈ b.parameters) ∧
        a.symbol_expr = b.symbol_expr))
    ∧ (a.eq (.num n) = true ↔ a.symbol_expr.eqNum n = true) := by
  constructor
  · simp only [ParameterExpression.eq, ParameterExpression.eqExpr,
      Bool.and_eq_true, List.all_eq_true, beq_iff_eq]
    constructor
    · rintro ⟨⟨h1, h2⟩, h3⟩
      refine ⟨fun p => ⟨fun hp => ?_, fun hp => ?_⟩, h3⟩
      · simpa using h1 p hp
      · simpa using h2 p hp
    · rintro ⟨h, h3⟩
      refine ⟨⟨fun p hp => ?_, fun p hp => ?_⟩, h3⟩
      · simpa using (h p).1 hp
      · simpa using (h p).2 hp
  · exact Iff.rfl

/-- C1 counterexample: the claim's "only when it is fully bound" fails —
multiplying the bare parameter x by the constant 0 produces an Expression
Value whose native value the evaluator reduces to the constant 0, so it
compares equal to the bare numeric constant 0 although its free-parameter
set still contains x. -/
theorem C1_counterexample :
    xP.toExpr.mulOp (.num (.real 0)) = .ok xTimesZero ∧
    xTimesZero.eq (.num (.real 0)) = true ∧
    xTimesZero.parameters = [xP] := ⟨rfl, rfl, rfl⟩

/-- C2: every successful bind returns an Expression Value whose
free-parameter set is exactly the receiver's parameter set minus the bound
keys — computed set-theoretically on the known parameter keys, independent
of what the evaluator reports as free symbols. -/
theorem C2_bind_free_parameters (a : ParameterExpression)
    (vals : List (Param × Operand)) (allow_unknown : Bool)
    (b : ParameterExpression)
    (h : a.bind vals allow_unknown = .ok b) :
    ∀ p : Param, p ∈ b.parameters ↔ (p ∈ a.parameters ∧ ¬ p ∈ pkeys vals) := by
  unfold ParameterExpression.bind at h
  split at h
  · exact absurd h (by simp)
  split at h
  · exact absurd h (by simp)
  dsimp only at h
  split at h
  · exact absurd h (by simp)
  injection h with h
  subst h
  intro p
  simp [ParameterExpression.parameters, ParameterExpression.parameter_symbols,
    pkeys, List.mem_filter, List.mem_map]

/-- C2 witness: binding y to 0 in x*y succeeds (the evaluator reduces the
native value to the constant 0, eliminating x algebraically), yet the
free-parameter set is computed as the set difference and still contains
x. -/
theorem C2_bind_free_parameters_witness :
    (xTimesY.bind [(yP, .num (.real 0))] false =
      .ok (getOkD (xTimesY.bind [(yP, .num (.real 0))] false) xP.toExpr)) ∧
    ((getOkD (xTimesY.bind [(yP, .num (.real 0))] false)
        xP.toExpr).symbol_expr = .const (.real 0)) ∧
    (xP ∈ (getOkD (xTimesY.bind [(yP, .num (.real 0))] false)
        xP.toExpr).parameters ↔
      (xP ∈ xTimesY.parameters ∧ ¬ xP ∈ pkeys [(yP, Operand.num (.real 0))])) :=
  ⟨rfl, rfl,
    C2_bind_free_parameters xTimesY [(yP, .num (.real 0))] false _ rfl xP⟩

/-- C3: dividing any Expression Value by the exact numeric constant zero
fails with ZeroDivisionError immediately (independently of the evaluator,
whose division is never consulted); and a bind call whose resulting native
value reports itself infinite, or compares equal to the infinity sentinel,
fails with ZeroDivisionError. -/
theorem C3_division_by_zero (a : ParameterExpression)
    (vals : List (Param × Operand))
    (h1 : a.unknownParams (pkeys vals) = [])
    (h2 : ParameterExpression.nonNumericEntries vals = [])
    (h3 : ParameterExpression.infiniteCheck (a.boundSymbolExpr vals) = true) :
    a.truedivOp (.num (.real 0)) = .error .zeroDivision ∧
    a.bind vals false = .error .zeroDivision := by
  constructor
  · rfl
  · simp [ParameterExpression.bind, h1, h2, h3]

/-- C3 witness: the expression 1/p, bound at p := 0, evaluates to the
infinity sentinel and the bind fails with ZeroDivisionError; likewise the
direct division of 1/p by the constant 0 fails. -/
theorem C3_division_by_zero_witness :
    (oneOverP.unknownParams (pkeys [(pP, Operand.num (.real 0))]) = [] ∧
      ParameterExpression.nonNumericEntries [(pP, Operand.num (.real 0))] = [] ∧
      ParameterExpression.infiniteCheck
        (oneOverP.boundSymbolExpr [(pP, Operand.num (.real 0))]) = true) ∧
    (oneOverP.truedivOp (.num (.real 0)) = .error .zeroDivision ∧
      oneOverP.bind [(pP, .num (.real 0))] false = .error .zeroDivision) :=
  ⟨⟨rfl, rfl, rfl⟩,
    C3_division_by_zero oneOverP [(pP, .num (.real 0))] rfl rfl rfl⟩

/-- C6: the gradient of an expression with respect to a parameter absent
from its free parameters is exactly the plain numeric value 0 — no
instruction is recorded and no Expression Value is constructed. -/
theorem C6_gradient_absent (a : ParameterExpression) (p : Param)
    (h : ¬ p ∈ a.parameters) :
    a.gradient p = .num (.real 0) := by
  have hc : (!(a.parameters.contains p)) = true := by simp [h]
  unfold ParameterExpression.gradient
  rw [if_pos hc]

/-- C6 witness: the gradient of the expression x with respect to the absent
parameter y is the numeric zero. -/
theorem C6_gradient_absent_witness :
    ¬ yP ∈ xP.toExpr.parameters ∧
    xP.toExpr.gradient yP = .num (.real 0) :=
  ⟨by decide, C6_gradient_absent xP.toExpr yP (by decide)⟩

/-- C9: the non-numeric-binding validation of bind rejects a supplied
binding iff some value is not an instance of the abstract numeric type; NaN
is numeric and therefore passes the check. -/
theorem C9_nonnumeric_check (vals : List (Param × Operand)) (p : Param) :
    (ParameterExpression.raise_if_passed_nan vals = some .nonNumericBinding ↔
      ∃ pv ∈ vals, ParameterExpression.isNumberOperand pv.2 = false)
    ∧ ParameterExpression.raise_if_passed_nan [(p, .num .nan)] = none := by
  have key : (!(List.filter
        (fun pv => !ParameterExpression.isNumberOperand pv.2) vals).isEmpty)
        = true ↔
      ∃ pv ∈ vals, ParameterExpression.isNumberOperand pv.2 = false := by
    simp
  constructor
  · unfold ParameterExpression.raise_if_passed_nan
      ParameterExpression.nonNumericEntries
    split_ifs with hc
    · exact iff_of_true rfl (key.mp hc)
    · exact iff_of_false (by simp) (fun hex => hc (key.mpr hex))
  · rfl

/-- Helper characterization: the conflict list computed by
`_raise_if_parameter_names_conflict` is nonempty exactly when some entry of
the name-indexed inbound map names a same-named receiver parameter that is
not outbound and differs in identity. -/
theorem conflictingNames_ne_nil_iff (a : ParameterExpression)
    (inbound : List (String × Param)) (outbound : List String) :
    a.conflictingNames inbound outbound ≠ [] ↔
      ∃ np ∈ inbound, ∃ r, dget a.names np.1 = some r ∧
        ¬ np.1 ∈ outbound ∧ np.2 ≠ r := by
  unfold ParameterExpression.conflictingNames
  rw [Ne, List.map_eq_nil_iff, List.filter_eq_nil_iff]
  push_neg
  constructor
  · rintro ⟨np, hmem, hpred⟩
    refine ⟨np, hmem, ?_⟩
    cases hd : dget a.names np.1 with
    | none =>
        simp only [hd] at hpred
        exact absurd hpred (by simp)
    | some r =>
        simp only [hd, Bool.and_eq_true, Bool.not_eq_true',
          decide_eq_true_eq] at hpred
        exact ⟨r, rfl, by simpa using hpred.1, hpred.2⟩
  · rintro ⟨np, hmem, r, hd, hout, hne⟩
    exact ⟨np, hmem, by simp [hd, hout, hne]⟩

/-- C4 (amended): the name-conflict detection of substitution indexes the
parameters introduced by replacement expressions by name, retaining for
each name only the last parameter encountered; given the unknown-parameter
validation passes, the call fails with NameConflictError iff some retained
representative has the name of a receiver parameter that is not being
replaced and differs from it in identity. -/
theorem C4_subs_name_conflict (a : ParameterExpression)
    (pmap : List (Param × ParameterExpression))
    (h : a.unknownParams (pkeys pmap) = []) :
    a.subs pmap false = .error .nameConflict ↔
      ∃ np ∈ ParameterExpression.inboundNames pmap, ∃ r,
        dget a.names np.1 = some r ∧
        ¬ np.1 ∈ (pkeys pmap).map Param.name ∧ np.2 ≠ r := by
  rw [← conflictingNames_ne_nil_iff]
  unfold ParameterExpression.subs
  dsimp only
  rw [if_neg (by simp [h])]
  split_ifs with hc
  · exact iff_of_true rfl hc
  · exact iff_of_false (by simp) hc

/-- C4 witness: substituting, into the receiver (x + y) + a, replacement
expressions whose last-encountered a-named parameter differs in identity
from the receiver's non-replaced a-named parameter fails with
NameConflictError, matching the characterization. -/
theorem C4_subs_name_conflict_witness :
    recPE.unknownParams (pkeys c4mapBad) = [] ∧
    (recPE.subs c4mapBad false = .error .nameConflict ↔
      ∃ np ∈ ParameterExpression.inboundNames c4mapBad, ∃ r,
        dget recPE.names np.1 = some r ∧
        ¬ np.1 ∈ (pkeys c4mapBad).map Param.name ∧ np.2 ≠ r) :=
  ⟨rfl, C4_subs_name_conflict recPE c4mapBad rfl⟩

/-- C4 counterexample: the claim as stated fails — the receiver (x + y) + a
contains a non-replaced parameter named a; the substitution map replaces x
by an expression introducing a distinct parameter of the same name a
(satisfying every condition of the claim for failure), but because a later
replacement expression introduces the receiver's own a-named parameter, the
name-keyed conflict index retains only that non-conflicting entry and the
call succeeds instead of failing. -/
theorem C4_counterexample :
    (recPE.subs c4map false).isOkE = true ∧
    a1P ∈ (a1P.toExpr).parameters ∧
    (xP, a1P.toExpr) ∈ c4map ∧
    a1P.name = a2P.name ∧
    a2P ∈ recPE.parameters ∧
    ¬ a2P ∈ pkeys c4map ∧
    a1P ≠ a2P := by
  refine ⟨rfl, by decide,
    show (xP, a1P.toExpr) ∈ [(xP, a1P.toExpr), (yP, a2P.toExpr)] from
      .head _,
    rfl, by decide, by decide, by decide⟩

/-- C5 (amended): every successful binary operation appends exactly one
instruction; the receiver's operand position records the receiver as an
explicit nested Expression Value exactly when the receiver's standalone
flag is set (otherwise it is left implicit as the prior step's output),
while the other operand is always recorded explicitly, regardless of any
standalone flag on it; reflected subtract/divide/power keep the receiver's
position on the left under their dedicated reflected codes, other reflected
operations put the other operand on the left. -/
theorem C5_instruction_recording (a : ParameterExpression)
    (operation : SymExpr → SymExpr → SymExpr) (other : Operand)
    (reflected : Bool) (op_code : OPCode) (b : ParameterExpression)
    (h : a.applyOperation operation other reflected op_code = .ok b) :
    b.qpy_replay = a.qpy_replay ++
      [if reflected = true then
        (if op_code = .RSUB ∨ op_code = .RDIV ∨ op_code = .RPOW then
          ReplayOp.instr op_code a.selfOperand (some other)
        else ReplayOp.instr op_code (some other) a.selfOperand)
      else ReplayOp.instr op_code a.selfOperand (some other)] := by
  unfold ParameterExpression.applyOperation at h
  dsimp only at h
  split at h
  · split at h
    all_goals first
      | exact Except.noConfusion h
      | (injection h with h; subst h; rfl)
  · split at h
    all_goals first
      | exact Except.noConfusion h
      | (injection h with h; subst h; rfl)
  · exact Except.noConfusion h

/-- C5 witness: adding the finite constant 2 to the standalone expression x
succeeds and appends an ADD instruction recording the standalone receiver
explicitly and the literal operand explicitly. -/
theorem C5_instruction_recording_witness :
    xP.toExpr.applyOperation SymExpr.addE (.num (.real 2)) false .ADD =
      .ok (getOkD (xP.toExpr.applyOperation SymExpr.addE
        (.num (.real 2)) false .ADD) xP.toExpr) ∧
    (getOkD (xP.toExpr.applyOperation SymExpr.addE
        (.num (.real 2)) false .ADD) xP.toExpr).qpy_replay =
      [ReplayOp.instr .ADD (some (.expr xP.toExpr))
        (some (.num (.real 2)))] :=
  ⟨rfl, C5_instruction_recording xP.toExpr SymExpr.addE (.num (.real 2))
    false .ADD _ rfl⟩

/-- C5 counterexample: the claim as stated fails for the non-receiver
operand — adding the non-standalone Expression Value y + 1 to x records
that operand as an explicit nested Expression Value in the appended
instruction even though its standalone flag is clear, where the claim
requires an implicit operand position. -/
theorem C5_counterexample :
    ((xP.toExpr.addOp (.expr bC)).getOkE.map
        ParameterExpression.qpy_replay) =
      some [.instr .ADD (some (.expr xP.toExpr)) (some (.expr bC))] ∧
    bC.standalone_param = false := ⟨rfl, rfl⟩

/-- C7: the float cast first attempts the direct native coercion; if that
fails while free parameters remain it fails with a type error naming them;
if that fails with no free parameters remaining it retries through the
complex coercion, returning the real part iff the imaginary part is exactly
zero and failing with a type error otherwise. -/
theorem C7_float_cast (a : ParameterExpression) :
    (∀ v : PyNum, a.symbol_expr.value = some v →
        (∀ re im : ℚ, v ≠ .cplx re im) → a.toFloat = .ok v)
    ∧ (a.floatAttemptFails = true → a.parameters ≠ [] →
        a.toFloat = .error (.unboundParameters a.parameters))
    ∧ (a.parameters = [] → ∀ re im : ℚ,
        a.symbol_expr.value = some (.cplx re im) →
          ((a.toFloat = .ok (.real re) ↔ im = 0) ∧
            (im ≠ 0 → a.toFloat = .error .notCastableFloat))) := by
  refine ⟨?_, ?_, ?_⟩
  · intro v hv hnc
    unfold ParameterExpression.toFloat
    rw [hv]
    cases v with
    | cplx re im => exact absurd rfl (hnc re im)
    | real q => rfl
    | inf => rfl
    | ninf => rfl
    | nan => rfl
  · intro hf hp
    have hne : a.parameters.isEmpty = false := by
      cases hl : a.parameters with
      | nil => exact absurd hl hp
      | cons x xs => rfl
    unfold ParameterExpression.floatAttemptFails at hf
    unfold ParameterExpression.toFloat
    cases hval : a.symbol_expr.value with
    | none => simp [hval, hne]
    | some v =>
        rw [hval] at hf
        cases v with
        | cplx re im => simp [hval, hne]
        | real q => simp at hf
        | inf => simp at hf
        | ninf => simp at hf
        | nan => simp at hf
  · intro hp re im hval
    have hie : a.parameters.isEmpty = true := by rw [hp]; rfl
    unfold ParameterExpression.toFloat
    rw [hval]
    simp only [hie, Bool.not_true, Bool.false_eq_true, if_false]
    constructor
    · split_ifs with h0
      · exact iff_of_true rfl h0
      · exact iff_of_false (by simp) h0
    · intro hne0
      rw [if_neg hne0]

/-- C7 witness: a fully bound Expression Value whose native value is
complex-typed with zero imaginary part fails the direct float coercion but
casts to float through the complex retry, returning the real part. -/
theorem C7_float_cast_witness :
    cplxPE.parameters = [] ∧
    cplxPE.symbol_expr.value = some (.cplx 3 0) ∧
    cplxPE.floatAttemptFails = true ∧
    (cplxPE.toFloat = .ok (.real 3) ↔ (0 : ℚ) = 0) :=
  ⟨rfl, rfl, rfl, ((C7_float_cast cplxPE).2.2 rfl 3 0 rfl).1⟩

/-- C8: a binary operation with a non-finite plain-number operand (NaN or
an infinity) is declined — the not-applicable result is returned, no
instruction is recorded and no Expression Value is produced; with a finite
plain-number operand the resulting symbol mapping is exactly the
receiver's. -/
theorem C8_nonfinite_operand (a : ParameterExpression)
    (operation : SymExpr → SymExpr → SymExpr) (reflected : Bool)
    (op_code : OPCode) :
    (∀ n : PyNum, n.isfinite = false →
        a.applyOperation operation (.num n) reflected op_code =
          .error .notImplemented)
    ∧ (∀ (n : PyNum) (b : ParameterExpression),
        a.applyOperation operation (.num n) reflected op_code = .ok b →
          b.parameter_symbols = a.parameter_symbols) := by
  constructor
  · intro n hn
    unfold ParameterExpression.applyOperation
    dsimp only
    simp [hn]
  · intro n b h
    unfold ParameterExpression.applyOperation at h
    dsimp only at h
    split at h
    · injection h with h
      subst h
      rfl
    · exact absurd h (by simp)

/-- C8 witness: adding NaN to the expression x is declined as not
applicable, while adding the finite constant 5 succeeds with the symbol
mapping unchanged. -/
theorem C8_nonfinite_operand_witness :
    PyNum.nan.isfinite = false ∧
    xP.toExpr.applyOperation SymExpr.addE (.num .nan) false .ADD =
      .error .notImplemented ∧
    xP.toExpr.applyOperation SymExpr.addE (.num (.real 5)) false .ADD =
      .ok (getOkD (xP.toExpr.applyOperation SymExpr.addE
        (.num (.real 5)) false .ADD) xP.toExpr) ∧
    (getOkD (xP.toExpr.applyOperation SymExpr.addE
        (.num (.real 5)) false .ADD) xP.toExpr).parameter_symbols =
      xP.toExpr.parameter_symbols :=
  ⟨rfl,
    (C8_nonfinite_operand xP.toExpr SymExpr.addE false .ADD).1 .nan rfl,
    rfl,
    (C8_nonfinite_operand xP.toExpr SymExpr.addE false .ADD).2
      (.real 5) _ rfl⟩

/-- C10: unary negation and unary plus are performed as multiplication by
the literal constants -1 and 1 respectively, each succeeding and appending
a MUL instruction carrying that literal as the explicit operand — no
dedicated negation operation code is involved. -/
theorem C10_neg_pos_as_mul (a : ParameterExpression) :
    a.negOp = a.applyOperation SymExpr.mulE (.num (.real (-1))) false .MUL ∧
    a.posOp = a.applyOperation SymExpr.mulE (.num (.real 1)) false .MUL ∧
    (∃ b, a.negOp = .ok b ∧
      b.qpy_replay = a.qpy_replay ++
        [.instr .MUL a.selfOperand (some (.num (.real (-1))))]) ∧
    (∃ b, a.posOp = .ok b ∧
      b.qpy_replay = a.qpy_replay ++
        [.instr .MUL a.selfOperand (some (.num (.real 1)))]) := by
  refine ⟨rfl, rfl, ⟨_, rfl, rfl⟩, ⟨_, rfl, rfl⟩⟩
